import Mathlib

/-!
Shallow embedding of the browser-side UI scripts of the company-data
extraction / enrichment / letter-generation application, together with
proofs about the behaviour its specification describes.

Each JavaScript function that a claim concerns is translated into a pure
Lean function over an explicit state record.  DOM state (progress bar
values, status boxes, element visibility, cell text, pending timers) is
carried in the state records; `fetch` outcomes (the only inputs) are
passed as explicit values.  Display-only markup that no claim observes
(inline-style strings, the coverage statistics grid) is projected away;
every branch condition, every mutation of claim-relevant state, and every
literal message string is kept as written in the source.

JavaScript value coercions used by the source are modelled explicitly:
`x || d` on numbers (`jsOrNat`, where `undefined`/`0` are falsy),
`x || d` on strings (`jsOrString`, where `undefined`/`""` are falsy),
`String.prototype.trim` (`jsTrim`), `parseInt` (`jsParseInt`),
`Math.round` of an exact non-negative rational (`jsRound`), and the
first-occurrence deduplication of `[...new Set(xs)]` (`jsSetDedup`).
`Math.round((p / t) * 100)` is modelled as exact rational rounding,
which agrees with the double-precision computation on the magnitudes the
UI handles.
-/

/-- JavaScript `v || d` for an optional number: `undefined` and `0` are
falsy, every other natural is truthy. -/
def jsOrNat (v : Option Nat) (d : Nat) : Nat :=
  match v with
  | none => d
  | some 0 => d
  | some n => n

/-- JavaScript `v || d` for an optional string: `undefined` and `""` are
falsy, every other string is truthy. -/
def jsOrString (v : Option String) (d : String) : String :=
  match v with
  | none => d
  | some "" => d
  | some s => s

/-- `Math.round (num / den)` for a non-negative exact rational with
`den > 0`: round half away from zero, i.e. `⌊num/den + 1/2⌋`. -/
def jsRound (num den : Nat) : Nat := (2 * num + den) / (2 * den)

/-- `String.prototype.trim()`: strip leading and trailing whitespace.
Implemented structurally over the character list so that it evaluates
by kernel reduction. -/
def jsTrim (s : String) : String :=
  ⟨((s.data.dropWhile Char.isWhitespace).reverse.dropWhile Char.isWhitespace).reverse⟩

/-- Value of a list of decimal digit characters (helper for `jsParseInt`). -/
def digitsVal : List Char → Nat → Nat
  | [], acc => acc
  | c :: cs, acc => digitsVal cs (acc * 10 + (c.toNat - '0'.toNat))

/-- JavaScript `parseInt(s)` restricted to base 10 as the source uses it:
skip leading whitespace, read an optional sign and then leading decimal
digits; `NaN` (here `none`) when no digit is found. -/
def jsParseInt (s : String) : Option Int :=
  let l := s.data.dropWhile Char.isWhitespace
  let signAndRest : Int × List Char :=
    match l with
    | '-' :: r => (-1, r)
    | '+' :: r => (1, r)
    | r => (1, r)
  let ds := signAndRest.2.takeWhile Char.isDigit
  if ds.isEmpty then none else some (signAndRest.1 * (digitsVal ds 0 : Nat))

/-- Worker for `jsSetDedup`: keep each string's first occurrence, skipping
the ones already `seen`. -/
def jsSetDedupGo (seen : List String) : List String → List String
  | [] => []
  | x :: xs => if x ∈ seen then jsSetDedupGo seen xs else x :: jsSetDedupGo (x :: seen) xs

/-- JavaScript `[...new Set(xs)]`: deduplicate keeping first occurrences,
in insertion order. -/
def jsSetDedup (l : List String) : List String := jsSetDedupGo [] l

/-! ## Enrichment polling (`pollEnrichmentStatus`)

The poll fetches `GET /api/status/{jobId}` and branches on the parsed
body.  A poll outcome is either a thrown fetch/JSON error or a parsed
status body.  The UI state carries the progress bar value, the
`enrichmentStatus` status box, the visibility of the enriched-download
button, the shared globals the branch writes, and the poll (if any) that
this invocation scheduled with `setTimeout`. -/

/-- The `data.result` payload of a completed enrichment job (the fields
the poll reads; the coverage strings feed display-only markup and are
projected away). -/
structure EnrichmentResult where
  output_file : String
  total_processed : Nat
deriving Repr, DecidableEq

/-- A parsed `GET /api/status/{jobId}` body, assumed well-formed for its
status: `result` is read only in the `completed` branch, `error` only in
the `failed` branch, `processed`/`total` only otherwise (`none` models a
missing field). -/
structure StatusData where
  status : String
  result : EnrichmentResult
  error : String
  processed : Option Nat
  total : Option Nat
deriving Repr, DecidableEq

/-- Outcome of one poll round-trip: a thrown fetch / JSON-parse error, or
a parsed response body. -/
inductive PollOutcome where
  | fetchError (msg : String)
  | response (data : StatusData)
deriving Repr, DecidableEq

/-- Claim-relevant UI and global state touched by `pollEnrichmentStatus`.
`scheduledPoll` is the `(delay in ms, jobId)` of the follow-up poll this
invocation scheduled, `none` when it scheduled nothing. -/
structure EnrichUI where
  progressValue : Nat
  statusMsg : String
  statusType : String
  downloadEnrichedVisible : Bool
  currentDatasetFile : Option String
  enrichmentJobId : Option String
  datasetInfoFile : Option String
  scheduledPoll : Option (Nat × String)
deriving Repr, DecidableEq

/-- One invocation of `pollEnrichmentStatus(jobId)` applied to the poll's
outcome.  Mirrors the source branch for branch: `completed` sets the
progress bar to 100, reveals `download-enriched-btn`, points the shared
dataset file and the rendered dataset info at `data.result.output_file`
and schedules nothing; `failed` shows the server-supplied error and
schedules nothing; any other status computes the defaulted progress
percentage and schedules another poll after 2000 ms; a thrown error
shows a status-check error message and schedules nothing. -/
def pollEnrichmentStatus (jobId : String) (s : EnrichUI) (o : PollOutcome) : EnrichUI :=
  match o with
  | .fetchError msg =>
      { s with statusMsg := "❌ Error checking status: " ++ msg
               statusType := "error"
               scheduledPoll := none }
  | .response data =>
      if data.status = "completed" then
        { s with statusMsg := "✅ Enrichment complete"
                 statusType := "success"
                 progressValue := 100
                 downloadEnrichedVisible := true
                 currentDatasetFile := some data.result.output_file
                 enrichmentJobId := some jobId
                 datasetInfoFile := some data.result.output_file
                 scheduledPoll := none }
      else if data.status = "failed" then
        { s with statusMsg := "❌ " ++ data.error
                 statusType := "error"
                 scheduledPoll := none }
      else
        let processed := jsOrNat data.processed 0
        let total := jsOrNat data.total 1
        let percent := jsRound (100 * processed) total
        { s with progressValue := percent
                 statusMsg := "<span class='loading'></span> Enriching... " ++
                   toString processed ++ " / " ++ toString total ++ " companies"
                 statusType := "info"
                 scheduledPoll := some (2000, jobId) }

/-- A `running` status body with the given progress counters. -/
def runningStatus (p t : Nat) : StatusData :=
  { status := "running", result := ⟨"", 0⟩, error := "", processed := some p, total := some t }

/-- A `completed` status body whose result points at `file`. -/
def completedStatus (file : String) (n : Nat) : StatusData :=
  { status := "completed", result := ⟨file, n⟩, error := "", processed := none, total := none }

/-! ## Global search (`globalSearch` / `executeSearch`)

`globalSearch` reads the query input, validates, and debounces
`executeSearch` through a 300 ms `setTimeout` kept in `searchTimeout`
(each new invocation of the debounced path first calls `clearTimeout`,
so at most one callback is ever pending).  `executeSearch` is modelled
up to the point where it issues the `GET /api/search` request; `requests`
records, in order, each query for which a network request was issued. -/

/-- Claim-relevant search UI state: the `searchStatus` box, the
`searchResults` container, the pending debounced query (`searchTimeout`),
and the network requests issued so far. -/
structure SearchUI where
  statusMsg : String
  statusType : String
  resultsHtml : String
  pendingQuery : Option String
  requests : List String
deriving Repr, DecidableEq

/-- `executeSearch(query)`, modelled up to issuing the network request:
a query shorter than 2 characters shows a validation message and issues
nothing; otherwise the searching message is shown and the request is
issued. -/
def executeSearch (s : SearchUI) (query : String) : SearchUI :=
  if query.length < 2 then
    { s with statusMsg := "Enter at least 2 characters", statusType := "error" }
  else
    { s with statusMsg := "<span class='loading'></span> Searching across all datasets..."
             statusType := "info"
             requests := s.requests ++ [query] }

/-- One invocation of `globalSearch()` with the given raw input value:
an empty trimmed query shows a validation message and clears the results
container (leaving any pending debounce untouched, as in the source);
otherwise `clearTimeout` plus `setTimeout` replace the pending debounced
query with this one. -/
def globalSearch (s : SearchUI) (inputValue : String) : SearchUI :=
  let query := jsTrim inputValue
  if query.length < 1 then
    { s with statusMsg := "Please enter search term"
             statusType := "error"
             resultsHtml := "" }
  else
    { s with pendingQuery := some query }

/-- The debounce timer fires: run `executeSearch` on the pending query,
if any. -/
def fireSearchDebounce (s : SearchUI) : SearchUI :=
  match s.pendingQuery with
  | none => s
  | some q => executeSearch { s with pendingQuery := none } q

/-! ## Inline cell editing (`enableInlineEditing` / `saveCell`)

`enableInlineEditing` stores each editable cell's trimmed text in
`dataset.originalValue`; blurring a cell runs `saveCell`, which PATCHes
the trimmed text and, on any failure, writes
`cell.dataset.originalValue || cell.innerText` back into the cell — the
JavaScript `||` falls back to the cell's current text when the stored
original value is the empty string.  The per-cell state collapses the
transient in-flight styling (`#fff3cd` / `editing`) into the final state
of the invocation, which is all the claims observe. -/

/-- Outcome of the PATCH round-trip in `saveCell`. -/
inductive SaveOutcome where
  | ok
  | httpError (code : Nat)
  | saveFailed
  | networkError (msg : String)
deriving Repr, DecidableEq

/-- Which of `saveCell`'s two `setTimeout` callbacks is pending. -/
inductive CellTimeoutKind where
  | clearSaved
  | clearError
deriving Repr, DecidableEq

/-- Claim-relevant state of one editable table cell: its text, the stored
`dataset.originalValue` (`none` before `enableInlineEditing` runs), the
inline background colour, the `saved` / `error` class flags, and the
pending style-clearing timeout (delay in ms, kind). -/
structure EditableCell where
  innerText : String
  originalValue : Option String
  background : String
  saved : Bool
  error : Bool
  pendingTimeout : Option (Nat × CellTimeoutKind)
deriving Repr, DecidableEq

/-- One invocation of `saveCell(cell, datasetId)` applied to the PATCH
outcome.  On success the cell keeps its text, turns green, gains the
`saved` class, stores the submitted value as the new original value and
schedules a 1000 ms style clear; on any failure (`!res.ok`,
`success:false`, or a thrown error) the cell's text is set to
`cell.dataset.originalValue || cell.innerText`, the cell turns red,
gains the `error` class and schedules a 3000 ms style clear. -/
def saveCell (c : EditableCell) (outcome : SaveOutcome) : EditableCell :=
  let value := jsTrim c.innerText
  let originalValue := jsOrString c.originalValue c.innerText
  match outcome with
  | .ok =>
      { c with background := "#d4edda"
               saved := true
               originalValue := some value
               pendingTimeout := some (1000, .clearSaved) }
  | _ =>
      { c with innerText := originalValue
               background := "#f8d7da"
               error := true
               pendingTimeout := some (3000, .clearError) }

/-- The pending `setTimeout` of `saveCell` fires: remove the transient
class and reset the background. -/
def fireCellTimeout (c : EditableCell) : EditableCell :=
  match c.pendingTimeout with
  | none => c
  | some (_, .clearSaved) => { c with saved := false, background := "", pendingTimeout := none }
  | some (_, .clearError) => { c with error := false, background := "", pendingTimeout := none }

/-- `enableInlineEditing` on one freshly rendered editable cell: store
the trimmed rendered text as `dataset.originalValue`. -/
def enableInlineEditing (renderedText : String) : EditableCell :=
  { innerText := renderedText
    originalValue := some (jsTrim renderedText)
    background := ""
    saved := false
    error := false
    pendingTimeout := none }

/-- One user interaction with an editable cell: type `newText` into it,
then blur, triggering `saveCell` with the given PATCH outcome. -/
inductive EditEvent where
  | edit (newText : String) (outcome : SaveOutcome)
deriving Repr, DecidableEq

/-- Apply one edit event to a cell. -/
def applyEdit (c : EditableCell) : EditEvent → EditableCell
  | .edit t oc => saveCell { c with innerText := t } oc

/-- The value the server has most recently acknowledged, starting from
`a`: each successful save replaces it with the trimmed submitted text,
failed saves leave it unchanged. -/
def ackedFrom (a : String) (events : List EditEvent) : String :=
  events.foldl
    (fun acc e =>
      match e with
      | .edit t SaveOutcome.ok => jsTrim t
      | .edit _ _ => acc) a

/-- The server-acknowledged value of a cell rendered with `renderedText`
after a sequence of edit events. -/
def ackedValue (renderedText : String) (events : List EditEvent) : String :=
  ackedFrom (jsTrim renderedText) events

/-! ## Letter generation (`generateLetters` / `generateFromUpload` /
`generateFromDataset`)

Each submission either blocks with a status message before any network
request, or issues exactly one generation request. -/

/-- The network request a letter-generation submission issues. -/
inductive GenRequest where
  | upload (fileName mode : String) (lettersPerFile : Int) (templateName : String)
  | dataset (datasetId mode : String) (lettersPerFile : Int)
deriving Repr, DecidableEq

/-- Result of a letter-generation submission: blocked client-side with a
status message, or a network request issued. -/
inductive GenResult where
  | blocked (msg : String)
  | request (r : GenRequest)
deriving Repr, DecidableEq

/-- The form state `generateLetters` reads: the checked `dataSource`
radio, the chosen files (by name) of the two file inputs, the dataset
select's value (`none` when the element is missing), the checked
`outputMode` radio, and the raw `lettersPerFile` text (with the flag
that the element exists). -/
structure LetterForm where
  dataSource : Option String
  letterFileNames : List String
  templateFileNames : List String
  datasetSelectValue : Option String
  outputMode : Option String
  lettersPerFileValue : String
  lettersPerFileInputExists : Bool
deriving Repr, DecidableEq

/-- `generateFromUpload()`: data-file check, then the mandatory template
check, then output-mode and (for combined mode) letters-per-file
validation, then the multipart POST. -/
def generateFromUpload (f : LetterForm) : GenResult :=
  match f.letterFileNames with
  | [] => .blocked "Please select a data file"
  | fileName :: _ =>
    match f.templateFileNames with
    | [] => .blocked "Please upload a template file (.docx) - this is mandatory"
    | templateName :: _ =>
      match f.outputMode with
      | none => .blocked "Please select an output mode"
      | some mode =>
        if mode = "combined" then
          if f.lettersPerFileInputExists = false then
            .blocked "Letters per file input not found"
          else
            match jsParseInt f.lettersPerFileValue with
            | none => .blocked "Letters per file must be a number greater than 0"
            | some n =>
              if n < 1 then .blocked "Letters per file must be a number greater than 0"
              else .request (.upload fileName mode n templateName)
        else .request (.upload fileName mode 1 templateName)

/-- `generateFromDataset()`: dataset-selection check, then the mandatory
template check, then output-mode and (for combined mode)
letters-per-file validation, then the POST. -/
def generateFromDataset (f : LetterForm) : GenResult :=
  match f.datasetSelectValue with
  | none => .blocked "Please select a dataset"
  | some dsid =>
    if dsid = "" then .blocked "Please select a dataset"
    else
      match f.templateFileNames with
      | [] => .blocked "Please upload a template file (.docx) - this is mandatory"
      | _ :: _ =>
        match f.outputMode with
        | none => .blocked "Please select an output mode"
        | some mode =>
          if mode = "combined" then
            if f.lettersPerFileInputExists = false then
              .blocked "Letters per file input not found"
            else
              match jsParseInt f.lettersPerFileValue with
              | none => .blocked "Letters per file must be a number greater than 0"
              | some n =>
                if n < 1 then .blocked "Letters per file must be a number greater than 0"
                else .request (.dataset dsid mode n)
          else .request (.dataset dsid mode 1)

/-- `generateLetters()`: require a checked data source, then dispatch to
the upload or dataset path. -/
def generateLetters (f : LetterForm) : GenResult :=
  match f.dataSource with
  | none => .blocked "Please select a data source"
  | some src => if src = "upload" then generateFromUpload f else generateFromDataset f

/-! ## Region filters (`onRegionChange` / `onComparisonRegionChange`)

Both filters map the multi-selected regions through
`window.ENGLAND_REGIONS`, concatenate the county lists, deduplicate with
a `Set`, and join with `", "`; an empty selection clears the counties
field. -/

/-- `window.ENGLAND_REGIONS`, as declared in the source. -/
def ENGLAND_REGIONS : List (String × List String) :=
  [("North West", ["Cheshire", "Cumbria", "Greater Manchester", "Lancashire", "Merseyside"]),
   ("North East", ["County Durham", "Northumberland", "Tyne and Wear"]),
   ("West Midlands", ["Herefordshire", "Shropshire", "Staffordshire", "Warwickshire",
      "West Midlands", "Worcestershire"]),
   ("East Midlands", ["Derbyshire", "Leicestershire", "Lincolnshire", "Northamptonshire",
      "Nottinghamshire", "Rutland"]),
   ("East", ["Bedfordshire", "Cambridgeshire", "Essex", "Hertfordshire", "Norfolk", "Suffolk"]),
   ("South West", ["Bristol", "Cornwall", "Devon", "Dorset", "Gloucestershire", "Somerset",
      "Wiltshire"]),
   ("South East", ["Berkshire", "Buckinghamshire", "East Sussex", "Hampshire", "Isle of Wight",
      "Kent", "Oxfordshire", "Surrey", "West Sussex"]),
   ("London", ["Greater London"])]

/-- `window.ENGLAND_REGIONS[region]`: object property lookup. -/
def regionCounties (region : String) : Option (List String) :=
  (ENGLAND_REGIONS.find? (fun p => p.1 = region)).map (fun p => p.2)

/-- `onRegionChange()` applied to the selected region values: the new
value of the `counties` input. -/
def onRegionChange (selectedRegions : List String) : String :=
  if selectedRegions.length > 0 then
    let allCounties := selectedRegions.foldl
      (fun acc r =>
        match regionCounties r with
        | some cs => acc ++ cs
        | none => acc) []
    String.intercalate ", " (jsSetDedup allCounties)
  else ""

/-- `onComparisonRegionChange()` applied to the selected region values:
the new value of the `comparisonCounties` input (the source duplicates
the extraction filter's logic verbatim). -/
def onComparisonRegionChange (selectedRegions : List String) : String :=
  if selectedRegions.length > 0 then
    let allCounties := selectedRegions.foldl
      (fun acc r =>
        match regionCounties r with
        | some cs => acc ++ cs
        | none => acc) []
    String.intercalate ", " (jsSetDedup allCounties)
  else ""

/-- The value `clearRegionFilter()` writes into the `counties` input. -/
def clearRegionFilterCounties : String := ""

/-- Spec-side reading of the claim: the deduplicated union of the
selected regions' county lists, first occurrences kept in selection
order. -/
def dedupUnionSpec (selectedRegions : List String) : List String :=
  jsSetDedup (selectedRegions.foldl (fun acc r => acc ++ ((regionCounties r).getD [])) [])

/-! ## Dataset list (`loadDatasets`)

A successful, non-empty response renders one clickable list item per
dataset; both the item's own `onclick` and its View button invoke
`viewDataset(ds.id)`.  An empty (or missing) dataset array renders a
placeholder paragraph instead. -/

/-- One dataset summary of the `GET /api/datasets` response. -/
structure DatasetSummary where
  id : Nat
  name : String
  total_companies : Nat
  sic_codes : Option String
  description : Option String
  created_at : String
deriving Repr, DecidableEq

/-- The `GET /api/datasets` round-trip as `loadDatasets` observes it. -/
structure DatasetsResponse where
  ok : Bool
  httpStatus : Nat
  statusText : String
  success : Bool
  detail : Option String
  datasets : Option (List DatasetSummary)
deriving Repr, DecidableEq

/-- The claim-relevant content of one rendered `dataset-list-item`. -/
structure RenderedDatasetItem where
  onclickViewId : Nat
  buttonViewId : Nat
  heading : String
  metaCompanies : Nat
  metaSic : String
  descriptionHtml : String
deriving Repr, DecidableEq

/-- What `loadDatasets` leaves in the page: an error status, a silent
return because the container is missing, the empty-list placeholder, or
the rendered clickable items. -/
inductive LoadDatasetsResult where
  | error (msg : String)
  | noContainer
  | emptyList (placeholderHtml : String)
  | rendered (items : List RenderedDatasetItem)
deriving Repr, DecidableEq

/-- The list item rendered for one dataset summary: both its `onclick`
and its View button call `viewDataset(ds.id)`; the meta line applies the
source's `||`/ternary defaults. -/
def renderDatasetItem (ds : DatasetSummary) : RenderedDatasetItem :=
  { onclickViewId := ds.id
    buttonViewId := ds.id
    heading := ds.name
    metaCompanies := ds.total_companies
    metaSic := jsOrString ds.sic_codes "N/A"
    descriptionHtml :=
      match ds.description with
      | none => ""
      | some "" => ""
      | some d => "<br>" ++ d }

/-- One invocation of `loadDatasets()` applied to the fetch outcome
(`containerExists` models whether `datasetsList` is in the page; the
source returns silently when it is not). -/
def loadDatasets (containerExists : Bool) (resp : DatasetsResponse) : LoadDatasetsResult :=
  if resp.ok = false then
    .error ("HTTP " ++ toString resp.httpStatus ++ ": " ++ resp.statusText)
  else if resp.success = false then
    .error (jsOrString resp.detail "Failed to load datasets")
  else if containerExists = false then
    .noContainer
  else
    match resp.datasets with
    | none => .emptyList "<p style=\"color:#999\">No datasets saved yet.</p>"
    | some [] => .emptyList "<p style=\"color:#999\">No datasets saved yet.</p>"
    | some ds => .rendered (ds.map renderDatasetItem)

/-! ## Companies table (`renderCompaniesTable`)

The table renders at most the first 50 companies (`slice(0, 50)`), one
row per company with one cell per column, and a `Showing 50 of N
companies` footer exactly when the list is longer than 50. -/

/-- One entry of the `columns` array of `renderCompaniesTable`. -/
structure TableColumn where
  key : String
  label : String
  editable : Bool
deriving Repr, DecidableEq

/-- The `columns` array, as declared in the source. -/
def companyTableColumns : List TableColumn :=
  [⟨"company_number", "CompanyNumber", false⟩,
   ⟨"business_name", "BusinessName", true⟩,
   ⟨"address_line1", "AddressLine1", true⟩,
   ⟨"address_line2", "AddressLine2", true⟩,
   ⟨"town", "Town", true⟩,
   ⟨"county", "County", true⟩,
   ⟨"postcode", "Postcode", true⟩,
   ⟨"person_with_significant_control", "PersonWithSignificantControl", false⟩,
   ⟨"nature_of_control", "NatureOfControl", false⟩,
   ⟨"title", "Title", true⟩,
   ⟨"fname", "Fname", true⟩,
   ⟨"sname", "Sname", true⟩,
   ⟨"position", "Position", true⟩,
   ⟨"sic", "SIC", false⟩,
   ⟨"company_status", "CompanyStatus", false⟩,
   ⟨"company_type", "CompanyType", false⟩,
   ⟨"date_of_creation", "DateOfCreation", false⟩,
   ⟨"website", "Website", true⟩,
   ⟨"phone", "Phone", true⟩,
   ⟨"email", "Email", true⟩,
   ⟨"website_address", "WebsiteAddress", true⟩,
   ⟨"address_match", "AddressMatch(RegVsWeb)", true⟩]

/-- A company row of the `GET /api/datasets/{id}/companies` response:
its id and its flat fields, looked up by column key (`none` models a
missing / null field, handled by the source's `?? ""`). -/
structure Company where
  id : Nat
  fieldValue : String → Option String

/-- One rendered `<td>` of the companies table. -/
structure RenderedCell where
  contenteditable : Bool
  companyId : Nat
  field : String
  cssClass : String
  datasetId : Nat
  text : String
deriving Repr, DecidableEq

/-- One rendered `<tr>` of the companies table. -/
structure RenderedRow where
  cells : List RenderedCell
deriving Repr, DecidableEq

/-- What `renderCompaniesTable` leaves in the container. -/
inductive TableRenderResult where
  | noContainer
  | noCompanies (html : String)
  | table (headerLabels : List String) (rows : List RenderedRow)
      (footer : Option String) (tableId : String)

/-- The row rendered for one company: one cell per column, editable
columns marked `contenteditable` with the `editable-cell` class, cell
text `c[col.key] ?? ""`. -/
def renderCompanyRow (datasetId : Nat) (c : Company) : RenderedRow :=
  { cells := companyTableColumns.map (fun col =>
      { contenteditable := col.editable
        companyId := c.id
        field := col.key
        cssClass := if col.editable then "editable-cell" else "readonly-cell"
        datasetId := datasetId
        text := (c.fieldValue col.key).getD "" }) }

/-- The rendered rows: `companies.slice(0, 50)`, one row each. -/
def companiesRows (datasetId : Nat) (companies : List Company) : List RenderedRow :=
  (companies.take 50).map (renderCompanyRow datasetId)

/-- The footer: rendered exactly when more than 50 companies were
passed. -/
def companiesFooter (n : Nat) : Option String :=
  if 50 < n then some ("Showing 50 of " ++ toString n ++ " companies") else none

/-- One invocation of `renderCompaniesTable(containerId, companies,
datasetId)` applied to the fetched company list. -/
def renderCompaniesTable (containerExists : Bool) (companies : List Company)
    (datasetId : Nat) : TableRenderResult :=
  if containerExists = false then .noContainer
  else if companies.length = 0 then
    .noCompanies "<p style='color:#999;'>No companies found.</p>"
  else
    .table (companyTableColumns.map (fun c => c.label))
      (companiesRows datasetId companies)
      (companiesFooter companies.length)
      ("company-table-" ++ toString datasetId)

/-- A 51-element company list used to witness the truncation behaviour. -/
def sampleCompanies : List Company :=
  (List.range 51).map (fun i => { id := i, fieldValue := fun _ => none })

/-- The enrichment UI as `enrichDataset` leaves it before the first
poll: empty status, download button hidden, nothing scheduled. -/
def enrichUI0 : EnrichUI :=
  { progressValue := 0, statusMsg := "", statusType := "", downloadEnrichedVisible := false
    currentDatasetFile := none, enrichmentJobId := none, datasetInfoFile := none
    scheduledPoll := none }

/-- A fresh search UI: nothing pending, no request issued. -/
def searchUI0 : SearchUI :=
  { statusMsg := "", statusType := "", resultsHtml := "", pendingQuery := none, requests := [] }

/-- A cell mid-edit: the user replaced the acknowledged text "Old Name"
with "New Name" and has not yet saved. -/
def sampleCell : EditableCell :=
  { innerText := "New Name", originalValue := some "Old Name", background := ""
    saved := false, error := false, pendingTimeout := none }

/-- A letter-generation form on the upload path with a data file chosen
but no template file. -/
def uploadNoTemplateForm : LetterForm :=
  { dataSource := some "upload", letterFileNames := ["companies.xlsx"], templateFileNames := []
    datasetSelectValue := some "", outputMode := some "individual"
    lettersPerFileValue := "1", lettersPerFileInputExists := true }

/-- A letter-generation form on the upload path with neither a data file
nor a template file. -/
def noFilesForm : LetterForm :=
  { dataSource := some "upload", letterFileNames := [], templateFileNames := []
    datasetSelectValue := some "", outputMode := some "individual"
    lettersPerFileValue := "1", lettersPerFileInputExists := true }

/-- A successful `GET /api/datasets` response with two datasets. -/
def sampleDatasetsResponse : DatasetsResponse :=
  { ok := true, httpStatus := 200, statusText := "OK", success := true, detail := none
    datasets := some
      [{ id := 1, name := "Alpha", total_companies := 10, sic_codes := some "62020"
         description := none, created_at := "2024-01-01" },
       { id := 2, name := "Beta", total_companies := 5, sic_codes := none
         description := some "second run", created_at := "2024-02-02" }] }

/-! ## Theorems -/

/-- C1: for every poll of the enrichment job status: a `completed`
response sets the progress bar to 100, points the displayed dataset file
at the result's output file, reveals the enriched-download control and
schedules no further poll; the control becomes visible only through a
`completed` response; a `failed` response shows the server-supplied
error and schedules no further poll; any other response sets the
progress bar to `round(100 * processed / total)` (with the source's
defaults) and schedules another poll after 2000 ms; and the sequence
`running(25/100), running(80/100), completed` yields progress 25, 80,
100, with the download control revealed only after the final step. -/
theorem pollEnrichmentStatus_contract :
    (∀ jid s d, d.status = "completed" →
        (pollEnrichmentStatus jid s (.response d)).progressValue = 100 ∧
        (pollEnrichmentStatus jid s (.response d)).currentDatasetFile =
          some d.result.output_file ∧
        (pollEnrichmentStatus jid s (.response d)).datasetInfoFile =
          some d.result.output_file ∧
        (pollEnrichmentStatus jid s (.response d)).downloadEnrichedVisible = true ∧
        (pollEnrichmentStatus jid s (.response d)).scheduledPoll = none) ∧
    (∀ jid s o, (pollEnrichmentStatus jid s o).downloadEnrichedVisible = true →
        s.downloadEnrichedVisible = true ∨
        ∃ d, o = PollOutcome.response d ∧ d.status = "completed") ∧
    (∀ jid s d, d.status = "failed" →
        (pollEnrichmentStatus jid s (.response d)).statusMsg = "❌ " ++ d.error ∧
        (pollEnrichmentStatus jid s (.response d)).statusType = "error" ∧
        (pollEnrichmentStatus jid s (.response d)).scheduledPoll = none) ∧
    (∀ jid s d, d.status ≠ "completed" → d.status ≠ "failed" →
        (pollEnrichmentStatus jid s (.response d)).progressValue =
          jsRound (100 * jsOrNat d.processed 0) (jsOrNat d.total 1) ∧
        (pollEnrichmentStatus jid s (.response d)).scheduledPoll = some (2000, jid)) ∧
    (∀ jid s, s.downloadEnrichedVisible = false →
        (pollEnrichmentStatus jid s
            (.response (runningStatus 25 100))).progressValue = 25 ∧
        (pollEnrichmentStatus jid s
            (.response (runningStatus 25 100))).downloadEnrichedVisible = false ∧
        (pollEnrichmentStatus jid (pollEnrichmentStatus jid s (.response (runningStatus 25 100)))
            (.response (runningStatus 80 100))).progressValue = 80 ∧
        (pollEnrichmentStatus jid (pollEnrichmentStatus jid s (.response (runningStatus 25 100)))
            (.response (runningStatus 80 100))).downloadEnrichedVisible = false ∧
        (pollEnrichmentStatus jid
            (pollEnrichmentStatus jid
              (pollEnrichmentStatus jid s (.response (runningStatus 25 100)))
              (.response (runningStatus 80 100)))
            (.response (completedStatus "enriched.csv" 100))).progressValue = 100 ∧
        (pollEnrichmentStatus jid
            (pollEnrichmentStatus jid
              (pollEnrichmentStatus jid s (.response (runningStatus 25 100)))
              (.response (runningStatus 80 100)))
            (.response (completedStatus "enriched.csv" 100))).downloadEnrichedVisible = true) := by
  refine ⟨?_, ?_, ?_, ?_, ?_⟩
  · intro jid s d hd
    simp [pollEnrichmentStatus, hd]
  · intro jid s o hvis
    cases o with
    | fetchError msg => exact Or.inl (by simpa [pollEnrichmentStatus] using hvis)
    | response d =>
      by_cases hc : d.status = "completed"
      · exact Or.inr ⟨d, rfl, hc⟩
      · by_cases hf : d.status = "failed"
        · exact Or.inl (by simpa [pollEnrichmentStatus, hc, hf] using hvis)
        · exact Or.inl (by simpa [pollEnrichmentStatus, hc, hf] using hvis)
  · intro jid s d hd
    have hc : d.status ≠ "completed" := by simp [hd]
    simp [pollEnrichmentStatus, hc, hd]
  · intro jid s d hc hf
    simp [pollEnrichmentStatus, hc, hf]
  · intro jid s hvis
    refine ⟨?_, ?_, ?_, ?_, ?_, ?_⟩ <;>
      simp [pollEnrichmentStatus, runningStatus, completedStatus, jsOrNat, jsRound, hvis]

/-- C1 witness: a concrete `completed` response observed from the fresh
enrichment UI. -/
theorem pollEnrichmentStatus_contract_witness :
    (pollEnrichmentStatus "job-1" enrichUI0
        (.response (completedStatus "enriched.csv" 10))).progressValue = 100 ∧
    (pollEnrichmentStatus "job-1" enrichUI0
        (.response (completedStatus "enriched.csv" 10))).currentDatasetFile =
      some (completedStatus "enriched.csv" 10).result.output_file ∧
    (pollEnrichmentStatus "job-1" enrichUI0
        (.response (completedStatus "enriched.csv" 10))).datasetInfoFile =
      some (completedStatus "enriched.csv" 10).result.output_file ∧
    (pollEnrichmentStatus "job-1" enrichUI0
        (.response (completedStatus "enriched.csv" 10))).downloadEnrichedVisible = true ∧
    (pollEnrichmentStatus "job-1" enrichUI0
        (.response (completedStatus "enriched.csv" 10))).scheduledPoll = none :=
  pollEnrichmentStatus_contract.1 "job-1" enrichUI0 (completedStatus "enriched.csv" 10) rfl

/-- C7: when the poll request itself fails (a thrown fetch or JSON-parse
error), an error status message is shown and no further poll is
scheduled, whatever the prior UI state. -/
theorem pollEnrichmentStatus_fetch_failure_halts :
    ∀ jid s msg,
      (pollEnrichmentStatus jid s (.fetchError msg)).statusMsg =
        "❌ Error checking status: " ++ msg ∧
      (pollEnrichmentStatus jid s (.fetchError msg)).statusType = "error" ∧
      (pollEnrichmentStatus jid s (.fetchError msg)).scheduledPoll = none ∧
      (pollEnrichmentStatus jid s (.fetchError msg)).progressValue = s.progressValue ∧
      (pollEnrichmentStatus jid s (.fetchError msg)).downloadEnrichedVisible =
        s.downloadEnrichedVisible := by
  intro jid s msg
  simp [pollEnrichmentStatus]

/-- C10: in the non-terminal branch the progress computation never
divides by zero: missing or zero `processed` defaults to 0, missing or
zero `total` defaults to 1, so the denominator is positive and the
rendered percentage is the exact rounded integer. -/
theorem pollEnrichmentStatus_progress_welldefined :
    ∀ jid s d, d.status ≠ "completed" → d.status ≠ "failed" →
      0 < jsOrNat d.total 1 ∧
      (pollEnrichmentStatus jid s (.response d)).progressValue =
        (2 * (100 * jsOrNat d.processed 0) + jsOrNat d.total 1) /
          (2 * jsOrNat d.total 1) ∧
      ((d.processed = none ∨ d.processed = some 0) → jsOrNat d.processed 0 = 0) ∧
      ((d.total = none ∨ d.total = some 0) → jsOrNat d.total 1 = 1) := by
  intro jid s d hc hf
  refine ⟨?_, ?_, ?_, ?_⟩
  · match h : d.total with
    | none => simp [jsOrNat]
    | some 0 => simp [jsOrNat]
    | some (n + 1) => simp [jsOrNat]
  · simp [pollEnrichmentStatus, hc, hf, jsRound]
  · rintro (h | h) <;> simp [jsOrNat, h]
  · rintro (h | h) <;> simp [jsOrNat, h]

/-- C10 witness: a running response with no `processed` field and
`total` equal to 0 still yields a well-defined percentage. -/
theorem pollEnrichmentStatus_progress_welldefined_witness :
    0 < jsOrNat (runningStatus 7 0).total 1 ∧
    (pollEnrichmentStatus "job-1" enrichUI0
        (.response (runningStatus 7 0))).progressValue =
      (2 * (100 * jsOrNat (runningStatus 7 0).processed 0) + jsOrNat (runningStatus 7 0).total 1) /
        (2 * jsOrNat (runningStatus 7 0).total 1) ∧
    (((runningStatus 7 0).processed = none ∨ (runningStatus 7 0).processed = some 0) →
      jsOrNat (runningStatus 7 0).processed 0 = 0) ∧
    (((runningStatus 7 0).total = none ∨ (runningStatus 7 0).total = some 0) →
      jsOrNat (runningStatus 7 0).total 1 = 1) :=
  pollEnrichmentStatus_progress_welldefined "job-1" enrichUI0 (runningStatus 7 0)
    (by decide) (by decide)

/-- `globalSearch` never issues a request itself on any input. -/
lemma globalSearch_requests (s : SearchUI) (input : String) :
    (globalSearch s input).requests = s.requests := by
  by_cases h : (jsTrim input).length < 1 <;> simp [globalSearch, h]

/-- A whole burst of `globalSearch` invocations issues no request. -/
lemma foldl_globalSearch_requests (inputs : List String) (s : SearchUI) :
    (List.foldl globalSearch s inputs).requests = s.requests := by
  induction inputs generalizing s with
  | nil => rfl
  | cons x xs ih => rw [List.foldl_cons, ih, globalSearch_requests]

/-- A non-empty trimmed query replaces the pending debounced search. -/
lemma globalSearch_pending (s : SearchUI) (input : String)
    (h : 1 ≤ (jsTrim input).length) :
    globalSearch s input = { s with pendingQuery := some (jsTrim input) } := by
  unfold globalSearch
  rw [if_neg (by omega)]

/-- C2: a `globalSearch` invocation whose trimmed query has length
exactly 1 issues no network request — not when invoked and not when its
debounce fires, which instead shows the validation message; and for a
burst of invocations inside one debounce window whose final trimmed
query has length at least 2 (the earlier inputs non-empty), each new
invocation cancels the previously scheduled one, so firing the debounce
issues exactly one request, for the final query. -/
theorem globalSearch_validation_and_debounce :
    (∀ s input, (jsTrim input).length = 1 →
        (globalSearch s input).requests = s.requests ∧
        (globalSearch s input).pendingQuery = some (jsTrim input) ∧
        (fireSearchDebounce (globalSearch s input)).requests = s.requests ∧
        (fireSearchDebounce (globalSearch s input)).statusMsg = "Enter at least 2 characters" ∧
        (fireSearchDebounce (globalSearch s input)).statusType = "error") ∧
    (∀ s earlier last, (∀ i ∈ earlier, 1 ≤ (jsTrim i).length) →
        2 ≤ (jsTrim last).length →
        (List.foldl globalSearch s (earlier ++ [last])).pendingQuery = some (jsTrim last) ∧
        (fireSearchDebounce (List.foldl globalSearch s (earlier ++ [last]))).requests =
          s.requests ++ [jsTrim last] ∧
        (fireSearchDebounce (List.foldl globalSearch s (earlier ++ [last]))).pendingQuery =
          none) := by
  constructor
  · intro s input h
    have hg : globalSearch s input = { s with pendingQuery := some (jsTrim input) } :=
      globalSearch_pending s input (by omega)
    have hlt : (jsTrim input).length < 2 := by omega
    refine ⟨globalSearch_requests s input, ?_, ?_, ?_, ?_⟩ <;>
      simp [hg, fireSearchDebounce, executeSearch, hlt]
  · intro s earlier last hall hlast
    have hfold : (List.foldl globalSearch s earlier).requests = s.requests :=
      foldl_globalSearch_requests earlier s
    rw [List.foldl_append, List.foldl_cons, List.foldl_nil,
      globalSearch_pending (List.foldl globalSearch s earlier) last (by omega)]
    have hnlt : ¬ (jsTrim last).length < 2 := by omega
    refine ⟨rfl, ?_, ?_⟩ <;> simp [fireSearchDebounce, executeSearch, hnlt, hfold]

/-- C2 witness: typing "a" then "ab" inside the debounce window issues
exactly the single request "ab". -/
theorem globalSearch_validation_and_debounce_witness :
    (List.foldl globalSearch searchUI0 (["a"] ++ ["ab"])).pendingQuery = some (jsTrim "ab") ∧
    (fireSearchDebounce (List.foldl globalSearch searchUI0 (["a"] ++ ["ab"]))).requests =
      searchUI0.requests ++ [jsTrim "ab"] ∧
    (fireSearchDebounce (List.foldl globalSearch searchUI0 (["a"] ++ ["ab"]))).pendingQuery =
      none :=
  globalSearch_validation_and_debounce.2 searchUI0 ["a"] "ab" (by decide) (by decide)

/-- The JavaScript `||` fallback picks the stored value when it is a
non-empty string. -/
lemma jsOrString_some_of_ne (v fb : String) (h : v ≠ "") : jsOrString (some v) fb = v := by
  unfold jsOrString
  split
  · next heq => cases heq
  · next heq => exact absurd (by injection heq) h
  · next s heq => injection heq with h2; exact h2.symm

/-- C3 counterexample: a failed save on a cell whose stored pre-edit
value (`dataset.originalValue`) is the empty string does not restore the
empty pre-edit text — the `||` fallback substitutes the cell's current
text, so the submitted draft stays in the cell. -/
theorem saveCell_empty_preedit_not_restored :
    (saveCell { innerText := "draft", originalValue := some "", background := ""
                saved := false, error := false, pendingTimeout := none }
        (SaveOutcome.httpError 500)).innerText = "draft" ∧
    ("draft" : String) ≠ "" := by
  exact ⟨rfl, by decide⟩

/-- C3 (amended): on every failed save (non-OK HTTP status,
`success:false` body, or a thrown network error) the cell gains the
error-styling class and the red background, a 3000 ms timeout is
scheduled whose firing clears them, and the cell's text is restored to
the stored pre-edit value whenever that value is non-empty; when the
stored pre-edit value is the empty string, the `||` fallback leaves the
cell's current (submitted) text in place instead. -/
theorem saveCell_failure_restores_and_styles :
    ∀ c oc, oc ≠ SaveOutcome.ok →
      (saveCell c oc).error = true ∧
      (saveCell c oc).background = "#f8d7da" ∧
      (saveCell c oc).pendingTimeout = some (3000, CellTimeoutKind.clearError) ∧
      (fireCellTimeout (saveCell c oc)).error = false ∧
      (fireCellTimeout (saveCell c oc)).background = "" ∧
      (fireCellTimeout (saveCell c oc)).pendingTimeout = none ∧
      (∀ v, c.originalValue = some v → v ≠ "" → (saveCell c oc).innerText = v) ∧
      (c.originalValue = some "" → (saveCell c oc).innerText = c.innerText) := by
  intro c oc hoc
  have hmain : ∀ d : EditableCell,
      d = { c with innerText := jsOrString c.originalValue c.innerText
                   background := "#f8d7da", error := true
                   pendingTimeout := some (3000, CellTimeoutKind.clearError) } →
      saveCell c oc = d := by
    intro d hd
    cases oc with
    | ok => exact absurd rfl hoc
    | httpError code => rw [hd]; rfl
    | saveFailed => rw [hd]; rfl
    | networkError msg => rw [hd]; rfl
  rw [hmain _ rfl]
  refine ⟨rfl, rfl, rfl, rfl, rfl, rfl, ?_, ?_⟩
  · intro v hv hne
    simpa [hv] using jsOrString_some_of_ne v c.innerText hne
  · intro hv
    simp [hv, jsOrString]

/-- C3 witness: a concrete failed save with non-empty pre-edit value
"Old Name" restores the cell and styles it. -/
theorem saveCell_failure_restores_and_styles_witness :
    (saveCell sampleCell (SaveOutcome.networkError "Failed to fetch")).error = true ∧
    (saveCell sampleCell (SaveOutcome.networkError "Failed to fetch")).background = "#f8d7da" ∧
    (saveCell sampleCell (SaveOutcome.networkError "Failed to fetch")).pendingTimeout =
      some (3000, CellTimeoutKind.clearError) ∧
    (fireCellTimeout (saveCell sampleCell (SaveOutcome.networkError "Failed to fetch"))).error =
      false ∧
    (fireCellTimeout
        (saveCell sampleCell (SaveOutcome.networkError "Failed to fetch"))).background = "" ∧
    (fireCellTimeout
        (saveCell sampleCell (SaveOutcome.networkError "Failed to fetch"))).pendingTimeout =
      none ∧
    (∀ v, sampleCell.originalValue = some v → v ≠ "" →
        (saveCell sampleCell (SaveOutcome.networkError "Failed to fetch")).innerText = v) ∧
    (sampleCell.originalValue = some "" →
        (saveCell sampleCell (SaveOutcome.networkError "Failed to fetch")).innerText =
          sampleCell.innerText) :=
  saveCell_failure_restores_and_styles sampleCell (SaveOutcome.networkError "Failed to fetch")
    (by decide)

/-- The stored `dataset.originalValue` after a sequence of edits equals
the acknowledged-value fold. -/
lemma foldl_applyEdit_originalValue (es : List EditEvent) :
    ∀ (c : EditableCell) (a : String), c.originalValue = some a →
      (List.foldl applyEdit c es).originalValue = some (ackedFrom a es) := by
  induction es with
  | nil => intro c a h; simpa [ackedFrom] using h
  | cons e es ih =>
    intro c a h
    rcases e with ⟨t, oc⟩
    rw [List.foldl_cons]
    cases oc with
    | ok =>
      have h1 : (applyEdit c (.edit t .ok)).originalValue = some (jsTrim t) := by
        simp [applyEdit, saveCell]
      exact ih _ _ h1
    | httpError code =>
      have h1 : (applyEdit c (.edit t (.httpError code))).originalValue = some a := by
        simpa [applyEdit, saveCell] using h
      exact ih _ _ h1
    | saveFailed =>
      have h1 : (applyEdit c (.edit t .saveFailed)).originalValue = some a := by
        simpa [applyEdit, saveCell] using h
      exact ih _ _ h1
    | networkError msg =>
      have h1 : (applyEdit c (.edit t (.networkError msg))).originalValue = some a := by
        simpa [applyEdit, saveCell] using h
      exact ih _ _ h1

/-- C9 counterexample: after the server acknowledges an empty value (a
blank edit saved successfully), a later failed edit does not revert the
cell to that acknowledged empty value — the submitted text stays. -/
theorem failed_edit_after_empty_acknowledged :
    ackedValue "Old" [EditEvent.edit "" SaveOutcome.ok] = "" ∧
    (List.foldl applyEdit (enableInlineEditing "Old")
        [EditEvent.edit "" SaveOutcome.ok,
         EditEvent.edit "New" (SaveOutcome.httpError 500)]).innerText = "New" ∧
    ("New" : String) ≠ "" := by
  refine ⟨rfl, rfl, by decide⟩

/-- C9 (amended): for every edit session on an editable cell, the stored
`dataset.originalValue` always equals the last server-acknowledged value
(initialised to the trimmed rendered text, replaced by the trimmed
submitted value exactly on successful saves, untouched by failed saves);
consequently a failed edit reverts the cell to the most recently
acknowledged value whenever that value is non-empty, and leaves the
submitted text in place when the acknowledged value is the empty
string. -/
theorem originalValue_tracks_acknowledged :
    (∀ r es, (List.foldl applyEdit (enableInlineEditing r) es).originalValue =
        some (ackedValue r es)) ∧
    (∀ r es t oc, oc ≠ SaveOutcome.ok → ackedValue r es ≠ "" →
        (List.foldl applyEdit (enableInlineEditing r)
            (es ++ [EditEvent.edit t oc])).innerText = ackedValue r es) ∧
    (∀ r es t oc, oc ≠ SaveOutcome.ok → ackedValue r es = "" →
        (List.foldl applyEdit (enableInlineEditing r)
            (es ++ [EditEvent.edit t oc])).innerText = t) := by
  have hbase : ∀ r : String, (enableInlineEditing r).originalValue = some (jsTrim r) := by
    intro r; rfl
  have htrack : ∀ r es, (List.foldl applyEdit (enableInlineEditing r) es).originalValue =
      some (ackedValue r es) := by
    intro r es
    exact foldl_applyEdit_originalValue es (enableInlineEditing r) (jsTrim r) (hbase r)
  have hfail : ∀ (c : EditableCell) t oc, oc ≠ SaveOutcome.ok →
      (applyEdit c (EditEvent.edit t oc)).innerText =
        jsOrString c.originalValue t := by
    intro c t oc hoc
    cases oc with
    | ok => exact absurd rfl hoc
    | httpError code => rfl
    | saveFailed => rfl
    | networkError msg => rfl
  refine ⟨htrack, ?_, ?_⟩
  · intro r es t oc hoc hne
    rw [List.foldl_append, List.foldl_cons, List.foldl_nil, hfail _ t oc hoc, htrack r es]
    exact jsOrString_some_of_ne _ _ hne
  · intro r es t oc hoc heq
    rw [List.foldl_append, List.foldl_cons, List.foldl_nil, hfail _ t oc hoc, htrack r es, heq]
    rfl

/-- C9 witness: a concrete session — render "Old Name", submit "typo"
and fail — reverts the cell to the acknowledged "Old Name". -/
theorem originalValue_tracks_acknowledged_witness :
    ackedValue "Old Name" [] ≠ "" ∧
    (List.foldl applyEdit (enableInlineEditing "Old Name")
        ([] ++ [EditEvent.edit "typo" (SaveOutcome.httpError 500)])).innerText =
      ackedValue "Old Name" [] :=
  ⟨by decide,
   originalValue_tracks_acknowledged.2.1 "Old Name" [] "typo" (SaveOutcome.httpError 500)
     (by decide) (by decide)⟩

/-- C4 counterexample: a submission with no template file and also no
data file is blocked, but with the data-file message — the
mandatory-template error is not the one shown, because the data-file
check runs first. -/
theorem generateLetters_no_template_other_message :
    noFilesForm.templateFileNames = [] ∧
    generateLetters noFilesForm = GenResult.blocked "Please select a data file" ∧
    GenResult.blocked "Please select a data file" ≠
      GenResult.blocked "Please upload a template file (.docx) - this is mandatory" := by
  exact ⟨rfl, rfl, by decide⟩

/-- C4 (amended): every letter-generation submission with no template
file selected is blocked before any network request is made, on both
the upload and the dataset path; the mandatory-template error message is
the one shown provided the preceding check of the chosen path passes (a
data file is selected on the upload path, a dataset is selected on the
dataset path) — otherwise that earlier check's message is shown
instead. -/
theorem generateLetters_template_mandatory :
    (∀ f r, f.templateFileNames = [] → generateLetters f ≠ GenResult.request r) ∧
    (∀ f fileName rest, f.templateFileNames = [] → f.dataSource = some "upload" →
        f.letterFileNames = fileName :: rest →
        generateLetters f =
          GenResult.blocked "Please upload a template file (.docx) - this is mandatory") ∧
    (∀ f src dsid, f.templateFileNames = [] → f.dataSource = some src → src ≠ "upload" →
        f.datasetSelectValue = some dsid → dsid ≠ "" →
        generateLetters f =
          GenResult.blocked "Please upload a template file (.docx) - this is mandatory") := by
  refine ⟨?_, ?_, ?_⟩
  · intro f r htpl
    unfold generateLetters
    rcases hds : f.dataSource with _ | src
    · simp
    · dsimp only
      by_cases hsrc : src = "upload"
      · rw [if_pos hsrc]
        unfold generateFromUpload
        rcases hfl : f.letterFileNames with _ | ⟨fn, rest⟩
        · simp
        · rw [htpl]; simp
      · rw [if_neg hsrc]
        unfold generateFromDataset
        rcases hdsv : f.datasetSelectValue with _ | dsid
        · simp
        · dsimp only
          by_cases hde : dsid = ""
          · rw [if_pos hde]; simp
          · rw [if_neg hde, htpl]; simp
  · intro f fileName rest htpl hds hfl
    simp [generateLetters, hds, generateFromUpload, hfl, htpl]
  · intro f src dsid htpl hds hsrc hdsv hde
    simp [generateLetters, hds, hsrc, generateFromDataset, hdsv, hde, htpl]

/-- C4 witness: a submission with a data file chosen but no template is
blocked with the mandatory-template message. -/
theorem generateLetters_template_mandatory_witness :
    generateLetters uploadNoTemplateForm =
      GenResult.blocked "Please upload a template file (.docx) - this is mandatory" :=
  generateLetters_template_mandatory.2.1 uploadNoTemplateForm "companies.xlsx" [] rfl rfl rfl

/-- Membership in the `Set`-style deduplication: an element survives iff
it occurs in the input and was not already seen. -/
lemma mem_jsSetDedupGo (a : String) :
    ∀ (l seen : List String), a ∈ jsSetDedupGo seen l ↔ a ∈ l ∧ a ∉ seen := by
  intro l
  induction l with
  | nil => intro seen; simp [jsSetDedupGo]
  | cons x xs ih =>
    intro seen
    by_cases hx : x ∈ seen
    · rw [show jsSetDedupGo seen (x :: xs) = jsSetDedupGo seen xs by simp [jsSetDedupGo, hx]]
      rw [ih seen]
      constructor
      · rintro ⟨ha, hs⟩
        exact ⟨List.mem_cons_of_mem x ha, hs⟩
      · rintro ⟨ha, hs⟩
        rcases List.mem_cons.1 ha with rfl | ha
        · exact absurd hx hs
        · exact ⟨ha, hs⟩
    · rw [show jsSetDedupGo seen (x :: xs) = x :: jsSetDedupGo (x :: seen) xs by
        simp [jsSetDedupGo, hx]]
      constructor
      · intro hmem
        rcases List.mem_cons.1 hmem with rfl | hmem
        · exact ⟨List.mem_cons_self a xs, hx⟩
        · obtain ⟨ha, hs⟩ := (ih (x :: seen)).1 hmem
          exact ⟨List.mem_cons_of_mem x ha, fun hsn => hs (List.mem_cons_of_mem x hsn)⟩
      · rintro ⟨ha, hs⟩
        rcases List.mem_cons.1 ha with rfl | ha
        · exact List.mem_cons_self a _
        · by_cases hax : a = x
          · subst hax; exact List.mem_cons_self a _
          · refine List.mem_cons_of_mem x ((ih (x :: seen)).2 ⟨ha, ?_⟩)
            intro hmem
            rcases List.mem_cons.1 hmem with h1 | h1
            · exact hax h1
            · exact hs h1

/-- The `Set`-style deduplication never keeps a duplicate. -/
lemma nodup_jsSetDedupGo : ∀ (l seen : List String), (jsSetDedupGo seen l).Nodup := by
  intro l
  induction l with
  | nil => intro seen; simp [jsSetDedupGo]
  | cons x xs ih =>
    intro seen
    by_cases hx : x ∈ seen
    · rw [show jsSetDedupGo seen (x :: xs) = jsSetDedupGo seen xs by simp [jsSetDedupGo, hx]]
      exact ih seen
    · rw [show jsSetDedupGo seen (x :: xs) = x :: jsSetDedupGo (x :: seen) xs by
        simp [jsSetDedupGo, hx]]
      refine List.nodup_cons.2 ⟨?_, ih (x :: seen)⟩
      intro hmem
      exact ((mem_jsSetDedupGo x xs (x :: seen)).1 hmem).2 (List.mem_cons_self x seen)

/-- The source's `forEach`/`push` accumulation equals a monadic bind over
the region lookups. -/
lemma foldl_counties_eq_bind (l : List String) :
    ∀ init : List String,
      l.foldl (fun acc r =>
          match regionCounties r with
          | some cs => acc ++ cs
          | none => acc) init =
        init ++ l.bind (fun r => (regionCounties r).getD []) := by
  induction l with
  | nil => intro init; simp
  | cons x xs ih =>
    intro init
    rw [List.foldl_cons, ih]
    cases h : regionCounties x with
    | none => simp [h]
    | some cs => simp [h, List.append_assoc]

/-- The spec-side accumulation equals the same bind. -/
lemma foldl_getD_eq_bind (g : String → List String) (l : List String) :
    ∀ init : List String,
      l.foldl (fun acc r => acc ++ g r) init = init ++ l.bind g := by
  induction l with
  | nil => intro init; simp
  | cons x xs ih =>
    intro init
    rw [List.foldl_cons, ih]
    simp [List.append_assoc]

/-- On a non-empty selection the code's counties value is the joined
spec-side deduplicated union. -/
lemma onRegionChange_eq_spec (sel : List String) (h : sel ≠ []) :
    onRegionChange sel = String.intercalate ", " (dedupUnionSpec sel) := by
  have hlen : 0 < sel.length := List.length_pos.2 h
  unfold onRegionChange dedupUnionSpec
  rw [if_pos hlen]
  dsimp only
  rw [foldl_counties_eq_bind, foldl_getD_eq_bind]

/-- Membership in the spec-side deduplicated union: exactly the counties
of the selected regions that exist in the region map. -/
lemma mem_dedupUnionSpec (sel : List String) (c : String) :
    c ∈ dedupUnionSpec sel ↔ ∃ r ∈ sel, ∃ cs, regionCounties r = some cs ∧ c ∈ cs := by
  unfold dedupUnionSpec jsSetDedup
  rw [foldl_getD_eq_bind, List.nil_append, mem_jsSetDedupGo]
  simp only [List.not_mem_nil, not_false_iff, and_true, List.mem_bind]
  constructor
  · rintro ⟨r, hr, hc⟩
    cases h : regionCounties r with
    | none => rw [h] at hc; simp at hc
    | some cs =>
      rw [h] at hc
      exact ⟨r, hr, cs, h, by simpa using hc⟩
  · rintro ⟨r, hr, cs, hcs, hc⟩
    exact ⟨r, hr, by simp [hcs, hc]⟩

/-- C5: for every non-empty region selection, both the extraction and
the comparison filter set the counties field to the deduplicated union
of the selected regions' county lists joined with ", " (no duplicates;
exactly the counties of the selected regions); an empty selection — in
particular after clearing the filter, which writes "" — yields the empty
string, in both filters. -/
theorem region_filter_counties_contract :
    (∀ sel, sel ≠ [] →
        onRegionChange sel = String.intercalate ", " (dedupUnionSpec sel) ∧
        (dedupUnionSpec sel).Nodup ∧
        (∀ c, c ∈ dedupUnionSpec sel ↔
            ∃ r ∈ sel, ∃ cs, regionCounties r = some cs ∧ c ∈ cs)) ∧
    onRegionChange [] = "" ∧
    (∀ sel, onComparisonRegionChange sel = onRegionChange sel) ∧
    clearRegionFilterCounties = "" := by
  refine ⟨?_, rfl, fun sel => rfl, rfl⟩
  intro sel h
  exact ⟨onRegionChange_eq_spec sel h, nodup_jsSetDedupGo _ _,
    fun c => mem_dedupUnionSpec sel c⟩

/-- C5 witness: selecting "North West" and "London". -/
theorem region_filter_counties_contract_witness :
    onRegionChange ["North West", "London"] =
      String.intercalate ", " (dedupUnionSpec ["North West", "London"]) ∧
    (dedupUnionSpec ["North West", "London"]).Nodup ∧
    (∀ c, c ∈ dedupUnionSpec ["North West", "London"] ↔
        ∃ r ∈ (["North West", "London"] : List String),
          ∃ cs, regionCounties r = some cs ∧ c ∈ cs) :=
  region_filter_counties_contract.1 ["North West", "London"] (by decide)

/-- C6: for every successful dataset-list response with a non-empty
dataset array, `loadDatasets` renders exactly one clickable item per
dataset — the i-th item's `onclick` (and its View button) invokes
`viewDataset` with the i-th dataset's id — and for a response with zero
(or missing) datasets it renders the "No datasets saved yet."
placeholder instead. -/
theorem loadDatasets_renders_each_dataset :
    (∀ resp l, resp.ok = true → resp.success = true → resp.datasets = some l → l ≠ [] →
        loadDatasets true resp = LoadDatasetsResult.rendered (l.map renderDatasetItem) ∧
        (l.map renderDatasetItem).length = l.length ∧
        (l.map renderDatasetItem).map (fun it => it.onclickViewId) =
          l.map (fun ds => ds.id) ∧
        (l.map renderDatasetItem).map (fun it => it.buttonViewId) =
          l.map (fun ds => ds.id)) ∧
    (∀ resp, resp.ok = true → resp.success = true →
        (resp.datasets = none ∨ resp.datasets = some []) →
        loadDatasets true resp =
          LoadDatasetsResult.emptyList "<p style=\"color:#999\">No datasets saved yet.</p>") := by
  constructor
  · intro resp l hok hsucc hds hne
    refine ⟨?_, List.length_map l renderDatasetItem, ?_, ?_⟩
    · rcases l with _ | ⟨d, ds⟩
      · exact absurd rfl hne
      · simp [loadDatasets, hok, hsucc, hds]
    · simp [List.map_map, renderDatasetItem, Function.comp]
    · simp [List.map_map, renderDatasetItem, Function.comp]
  · intro resp hok hsucc hds
    rcases hds with hds | hds <;> simp [loadDatasets, hok, hsucc, hds]

/-- C6 witness: a concrete two-dataset response renders two items with
ids 1 and 2. -/
theorem loadDatasets_renders_each_dataset_witness :
    loadDatasets true sampleDatasetsResponse =
      LoadDatasetsResult.rendered
        ((sampleDatasetsResponse.datasets.getD []).map renderDatasetItem) ∧
    ((sampleDatasetsResponse.datasets.getD []).map renderDatasetItem).length =
      (sampleDatasetsResponse.datasets.getD []).length ∧
    ((sampleDatasetsResponse.datasets.getD []).map renderDatasetItem).map
        (fun it => it.onclickViewId) =
      (sampleDatasetsResponse.datasets.getD []).map (fun ds => ds.id) ∧
    ((sampleDatasetsResponse.datasets.getD []).map renderDatasetItem).map
        (fun it => it.buttonViewId) =
      (sampleDatasetsResponse.datasets.getD []).map (fun ds => ds.id) :=
  loadDatasets_renders_each_dataset.1 sampleDatasetsResponse
    (sampleDatasetsResponse.datasets.getD []) rfl rfl rfl (by decide)

/-- C8: for every non-empty company list, `renderCompaniesTable` renders
the rows of `companies.slice(0, 50)` — so at most the first 50 companies
appear, each row carrying its own company's id — together with a
"Showing 50 of N companies" footer exactly when the list has more than
50 entries; with 50 or fewer entries every company is rendered and no
footer appears. -/
theorem renderCompaniesTable_truncates_at_50 :
    ∀ (companies : List Company) (dsId : Nat), companies ≠ [] →
      renderCompaniesTable true companies dsId =
        TableRenderResult.table (companyTableColumns.map (fun c => c.label))
          (companiesRows dsId companies) (companiesFooter companies.length)
          ("company-table-" ++ toString dsId) ∧
      (companiesRows dsId companies).length = min 50 companies.length ∧
      (companies.length ≤ 50 →
          companiesRows dsId companies = companies.map (renderCompanyRow dsId) ∧
          companiesFooter companies.length = none) ∧
      (50 < companies.length →
          (companiesRows dsId companies).length = 50 ∧
          companiesFooter companies.length =
            some ("Showing 50 of " ++ toString companies.length ++ " companies")) := by
  intro companies dsId hne
  have hlen : companies.length ≠ 0 := by
    simpa [List.length_eq_zero] using hne
  refine ⟨?_, ?_, ?_, ?_⟩
  · simp [renderCompaniesTable, hlen]
  · simp [companiesRows, List.length_take]
  · intro hle
    constructor
    · simp [companiesRows, List.take_of_length_le hle]
    · simp [companiesFooter, Nat.not_lt.2 hle]
  · intro hgt
    constructor
    · simp [companiesRows, List.length_take, Nat.min_eq_left (Nat.le_of_lt hgt)]
    · simp [companiesFooter, hgt]

/-- C8 witness: the 51-company sample renders 50 rows and the
"Showing 50 of 51 companies" footer. -/
theorem renderCompaniesTable_truncates_at_50_witness :
    (companiesRows 7 sampleCompanies).length = 50 ∧
    companiesFooter sampleCompanies.length =
      some ("Showing 50 of " ++ toString sampleCompanies.length ++ " companies") :=
  (renderCompaniesTable_truncates_at_50 sampleCompanies 7
      (by simp [sampleCompanies])).2.2.2 (by simp [sampleCompanies])
